import Mathlib

/-!
Verification of the marine-heatwave RAG repository.

The Python sources are embedded shallowly:
* `rag_prompt.py` — the query tool: prompt templates, the relevance-score
  screening loop of `main`, and the conversation loop, modelled as a step
  function over oracle outcomes for the retrieval and generation calls.
* `create_embedding_db.py` — the index build tool: the delete-then-rebuild
  sequence of `main`.
* `scrape_marine_heatwave.py` — the scraper: sync-log bookkeeping and the
  save-or-skip logic of `save_discussion_data`.

Machine reals (Python floats used only for the relevance scores and the
`0.7` threshold) are embedded as `ℚ`; the literal `0.7` is exactly `7/10`,
written `mkRat 7 10` so that concrete instances evaluate by kernel
reduction. External services (the vector store, the language model, the
clock, user input) are parameters or oracle outcomes, as the spec treats
them (out-of-scope collaborators).
-/

/-- A retrieved document chunk as seen by the query tool: langchain's
`Document`, of which `rag_prompt.py` only reads `page_content`. -/
structure Doc where
  page_content : String
deriving DecidableEq

/-- The literal `0.7` of `rag_prompt.py` `main` (line 170), as the exact
rational `7/10`. -/
def screen_threshold : ℚ := mkRat 7 10

theorem screen_threshold_eq_div : screen_threshold = (7 : ℚ)/10 := by
  norm_num [screen_threshold, Rat.mkRat_eq_divInt, Rat.divInt_eq_div]

/-- The relevance-score screening loop of `rag_prompt.py` `main`
(lines 167-171), parametric in the threshold (the "tunable policy" of the
spec): `for doc, score in result: if score >= t: result_screen.append(...)`. -/
def screenLoopT (t : ℚ) (result : List (Doc × ℚ)) : List (Doc × ℚ) :=
  result.foldl (fun acc p => if t ≤ p.2 then acc ++ [p] else acc) []

/-- The screening loop exactly as written in `rag_prompt.py` `main`
(lines 167-171), with the fixed threshold `0.7`. -/
def result_screen (result : List (Doc × ℚ)) : List (Doc × ℚ) :=
  result.foldl (fun acc p => if screen_threshold ≤ p.2 then acc ++ [p] else acc) []

/-- The context block built in `rag_prompt.py` `main` (line 179):
`"\n\n****\n\n".join(doc.page_content for doc in doc_contents)` where
`doc_contents` are the first components of `result_screen`. -/
def rag_context (result : List (Doc × ℚ)) : String :=
  String.intercalate "\n\n****\n\n"
    ((result_screen result).map (fun p => p.1.page_content))

theorem result_screen_eq_screenLoopT (result : List (Doc × ℚ)) :
    result_screen result = screenLoopT screen_threshold result := rfl

theorem screenLoopT_foldl_acc (t : ℚ) (l : List (Doc × ℚ)) :
    ∀ acc : List (Doc × ℚ),
      l.foldl (fun acc p => if t ≤ p.2 then acc ++ [p] else acc) acc =
        acc ++ l.filter (fun p => decide (t ≤ p.2)) := by
  induction l with
  | nil => intro acc; simp
  | cons p l ih =>
    intro acc
    by_cases h : t ≤ p.2
    · simp [List.foldl_cons, List.filter_cons, h, ih]
    · simp [List.foldl_cons, List.filter_cons, h, ih]

theorem screenLoopT_eq_filter (t : ℚ) (l : List (Doc × ℚ)) :
    screenLoopT t l = l.filter (fun p => decide (t ≤ p.2)) := by
  simpa using screenLoopT_foldl_acc t l []

/-- C1: For every query result list, the screening loop removes exactly the
pairs whose score is below the 0.7 threshold, keeps the survivors in their
original relative order (a sublist of the input, so ties keep the order the
similarity search returned), and the context block is the surviving chunk
texts joined in that order by the delimiter `"\n\n****\n\n"`. -/
theorem retriever_filter_order_and_context (result : List (Doc × ℚ)) :
    result_screen result = result.filter (fun p => decide (screen_threshold ≤ p.2)) ∧
    List.Sublist (result_screen result) result ∧
    rag_context result =
      String.intercalate "\n\n****\n\n"
        ((result.filter (fun p => decide (screen_threshold ≤ p.2))).map
          (fun p => p.1.page_content)) := by
  refine ⟨?_, ?_, ?_⟩
  · rw [result_screen_eq_screenLoopT, screenLoopT_eq_filter]
  · rw [result_screen_eq_screenLoopT, screenLoopT_eq_filter]
    exact List.filter_sublist result
  · unfold rag_context
    rw [result_screen_eq_screenLoopT, screenLoopT_eq_filter]

example : result_screen [(⟨"a"⟩, 1), (⟨"b"⟩, mkRat 1 2), (⟨"c"⟩, mkRat 7 10)] =
    [(⟨"a"⟩, 1), (⟨"c"⟩, mkRat 7 10)] := by decide

example : result_screen [(⟨"a"⟩, mkRat 1 2)] = [] := by decide

/-- The parsed command-line arguments of the query tool `rag_prompt.py`
(lines 90-108): exactly the three declared flags, with their defaults
`3`, `"./chroma_db"`, `"llama3"`. -/
structure Args where
  num_top_ans : Nat
  embedding_db_path : String
  model : String
deriving DecidableEq

/-- The flag names declared on the argument handler of `rag_prompt.py`
`main` (lines 90-108), in declaration order. -/
def cliFlagNames : List String :=
  ["--num_top_ans", "--embedding_db_path", "--model"]

/-- The screening step of `rag_prompt.py` `main` as a function of the parsed
arguments: the loop at lines 167-171 reads no field of `args` — the `0.7`
bound is a literal in the loop body. -/
def main_screen_step (_args : Args) (result : List (Doc × ℚ)) :
    List (Doc × ℚ) :=
  result_screen result

/-- C2 counterexample: the relevance threshold of the query tool is NOT
exposed as configuration. The declared flags are exactly top-k, database
path and model name — none sets a threshold — and the screening step filters
with the fixed literal `0.7` under the default arguments as well as under any
other arguments: the pair with score `1/2` is dropped either way. -/
theorem relevance_threshold_not_configurable :
    cliFlagNames = ["--num_top_ans", "--embedding_db_path", "--model"] ∧
    cliFlagNames.contains "--threshold" = false ∧
    cliFlagNames.contains "--relevance_threshold" = false ∧
    main_screen_step ⟨3, "./chroma_db", "llama3"⟩ [(⟨"a"⟩, mkRat 1 2)] = [] ∧
    main_screen_step ⟨99, "elsewhere", "mistral"⟩ [(⟨"a"⟩, mkRat 1 2)] = [] := by
  exact ⟨rfl, by decide, by decide, by decide, by decide⟩

/-- C2 (amended): the relevance threshold is the fixed constant `0.7` baked
into the query path — for every parsed argument value the screening step is
the threshold-`7/10` filter loop — and the query tool's configuration surface
is exactly the flags top-k, database path, and model name, with no
threshold flag. -/
theorem relevance_threshold_fixed_constant (a : Args)
    (result : List (Doc × ℚ)) :
    main_screen_step a result = screenLoopT ((7 : ℚ)/10) result ∧
    cliFlagNames = ["--num_top_ans", "--embedding_db_path", "--model"] ∧
    cliFlagNames.contains "--threshold" = false := by
  refine ⟨?_, rfl, by decide⟩
  rw [main_screen_step, result_screen_eq_screenLoopT, screen_threshold_eq_div]

/-- C5: raising the relevance threshold never increases the set of surviving
results: for `t1 ≤ t2` the survivors at `t2` are a sublist (hence a subset,
in the original order) of the survivors at `t1`, and there are no more of
them. -/
theorem threshold_monotone (t1 t2 : ℚ) (h : t1 ≤ t2)
    (result : List (Doc × ℚ)) :
    List.Sublist (screenLoopT t2 result) (screenLoopT t1 result) ∧
    (screenLoopT t2 result).length ≤ (screenLoopT t1 result).length ∧
    ∀ p ∈ screenLoopT t2 result, p ∈ screenLoopT t1 result := by
  have hsub : List.Sublist (screenLoopT t2 result) (screenLoopT t1 result) := by
    rw [screenLoopT_eq_filter, screenLoopT_eq_filter]
    refine List.monotone_filter_right result (fun p hp => ?_)
    simp only [decide_eq_true_eq] at hp ⊢
    exact le_trans h hp
  exact ⟨hsub, hsub.length_le, fun p hp => hsub.subset hp⟩

/-- Witness for C5 at concrete thresholds `1/2 ≤ 7/10` and a two-element
result list. -/
theorem threshold_monotone_witness :
    mkRat 1 2 ≤ mkRat 7 10 ∧
    (List.Sublist (screenLoopT (mkRat 7 10) [(⟨"a"⟩, mkRat 3 5), (⟨"b"⟩, 1)])
        (screenLoopT (mkRat 1 2) [(⟨"a"⟩, mkRat 3 5), (⟨"b"⟩, 1)]) ∧
      (screenLoopT (mkRat 7 10) [(⟨"a"⟩, mkRat 3 5), (⟨"b"⟩, 1)]).length ≤
        (screenLoopT (mkRat 1 2) [(⟨"a"⟩, mkRat 3 5), (⟨"b"⟩, 1)]).length ∧
      ∀ p ∈ screenLoopT (mkRat 7 10) [(⟨"a"⟩, mkRat 3 5), (⟨"b"⟩, 1)],
        p ∈ screenLoopT (mkRat 1 2) [(⟨"a"⟩, mkRat 3 5), (⟨"b"⟩, 1)]) :=
  ⟨by decide,
   threshold_monotone (mkRat 1 2) (mkRat 7 10) (by decide)
     [(⟨"a"⟩, mkRat 3 5), (⟨"b"⟩, 1)]⟩

/-- The prompt composer `rag_query_template` of `rag_prompt.py`
(lines 16-51): a pure function joining the fixed parts with blank lines. -/
def rag_query_template (rag_context_arg user_query : String)
    (cached_chat_history : String) : String :=
  String.intercalate "\n\n"
    ["You are a knowledgeable assistant.",
     "Use the following context and previous cached chat history to answer the question.",
     "----",
     "Context:",
     rag_context_arg,
     "----",
     "Cached Chat History: " ++ cached_chat_history,
     "(If the chat history is empty, just ignore it)",
     "----",
     "Answer the question: " ++ user_query] ++ "\n\n"

/-- The history-entry formatter `cache_query_answer_template` of
`rag_prompt.py` (lines 53-82); `datetime.now()` is passed in as the
`time_stamp` parameter (the clock is an external collaborator). -/
def cache_query_answer_template (user_query llm_answer time_stamp : String) :
    String :=
  String.intercalate "\n\n"
    ["The following is a previous user query and your answer at the following time: "
       ++ time_stamp ++ ".",
     "User's previous query:",
     user_query,
     "Your previous answer:",
     llm_answer] ++ "\n\n"

/-- Python's `str.lower()` as used on the user input in `rag_prompt.py`
`main` (line 155): lower-case every character. -/
def pyLower (s : String) : String :=
  String.mk (s.data.map Char.toLower)

/-- Python's `str.strip()` as used on the user input in `rag_prompt.py`
`main` (line 152): drop whitespace from both ends. -/
def pyStrip (s : String) : String :=
  String.mk
    (((s.data.dropWhile Char.isWhitespace).reverse.dropWhile
        Char.isWhitespace).reverse)

example : pyLower "QUIT" = "quit" := by decide
example : pyStrip "  QUIT " = "QUIT" := by decide

/-- The exit test of `rag_prompt.py` `main` (line 155):
`user_query.lower() in ['quit', 'exit']`. -/
def isExitKeyword (user_query : String) : Bool :=
  ["quit", "exit"].contains (pyLower user_query)

example : isExitKeyword "QUIT" = true := by decide
example : isExitKeyword "Exit" = true := by decide
example : isExitKeyword "hello" = false := by decide

/-- Outcome of the `similarity_search_with_relevance_scores` call inside the
`try` block of `rag_prompt.py` `main` (lines 161-183): either a scored result
list or a raised exception. -/
inductive RetrOutcome where
  | ok (result : List (Doc × ℚ))
  | err
deriving DecidableEq

/-- Outcome of the `llm.invoke(prompt)` call inside the `try` block of
`rag_prompt.py` `main` (lines 197-212): either a response string or a raised
exception. -/
inductive GenOutcome where
  | ok (response : String)
  | err
deriving DecidableEq

/-- Observable effect of one pass through the `while True` body of
`rag_prompt.py` `main` (lines 150-214). -/
structure IterEffect where
  exited : Bool
  chat_history : String
  retrievalCalled : Bool
  llmCalled : Bool
  noRelevantReported : Bool
  errorReported : Bool
deriving DecidableEq

/-- One pass through the conversation loop of `rag_prompt.py` `main`
(lines 150-214): strip the input; break on a case-insensitive exit keyword;
call the similarity search; on a retrieval exception print an error and
`continue`; screen by score and on an empty screen print "No relevant
documents found." and `continue`; otherwise compose the prompt, call the
language model; on a generation exception print an error and `continue`;
on success append the formatted exchange to the chat history. -/
def stepIteration (rawInput : String) (retr : RetrOutcome) (gen : GenOutcome)
    (time_stamp : String) (chat_history : String) : IterEffect :=
  let user_query := pyStrip rawInput
  if isExitKeyword user_query then
    ⟨true, chat_history, false, false, false, false⟩
  else
    match retr with
    | RetrOutcome.err => ⟨false, chat_history, true, false, false, true⟩
    | RetrOutcome.ok result =>
      let rs := result_screen result
      if rs.isEmpty then
        ⟨false, chat_history, true, false, true, false⟩
      else
        match gen with
        | GenOutcome.err => ⟨false, chat_history, true, true, false, true⟩
        | GenOutcome.ok response =>
          ⟨false,
           chat_history ++ cache_query_answer_template user_query response time_stamp,
           true, true, false, false⟩

example : (stepIteration "  QUIT " RetrOutcome.err GenOutcome.err "t" "h").exited
    = true := by decide

example : (stepIteration "hello" (RetrOutcome.ok [(⟨"c"⟩, 1)])
    (GenOutcome.ok "ans") "t" "").chat_history
    = cache_query_answer_template "hello" "ans" "t" := by decide

/-- C3: in any iteration of the conversation loop the chat history is either
left unchanged, or — exactly when the input is not an exit keyword, the
retrieval call returns, the screening keeps at least one result, and the
generation call returns — it grows by precisely the one formatted
(query, answer, timestamp) entry of the successful exchange. -/
theorem chat_history_growth (rawInput time_stamp chat_history : String)
    (retr : RetrOutcome) (gen : GenOutcome) :
    ((stepIteration rawInput retr gen time_stamp chat_history).chat_history
        = chat_history ∨
      (isExitKeyword (pyStrip rawInput) = false ∧
        ∃ result response, retr = RetrOutcome.ok result ∧
          (result_screen result).isEmpty = false ∧
          gen = GenOutcome.ok response ∧
          (stepIteration rawInput retr gen time_stamp chat_history).chat_history
            = chat_history ++
              cache_query_answer_template (pyStrip rawInput) response time_stamp)) ∧
    (∀ result response,
      isExitKeyword (pyStrip rawInput) = false →
      retr = RetrOutcome.ok result →
      (result_screen result).isEmpty = false →
      gen = GenOutcome.ok response →
      (stepIteration rawInput retr gen time_stamp chat_history).chat_history
        = chat_history ++
          cache_query_answer_template (pyStrip rawInput) response time_stamp) := by
  constructor
  · by_cases hq : isExitKeyword (pyStrip rawInput) = true
    · left; simp [stepIteration, hq]
    · rw [Bool.not_eq_true] at hq
      cases retr with
      | err => left; simp [stepIteration, hq]
      | ok result =>
        by_cases hrs : (result_screen result).isEmpty = true
        · left; simp [stepIteration, hq, hrs]
        · rw [Bool.not_eq_true] at hrs
          cases gen with
          | err => left; simp [stepIteration, hq, hrs]
          | ok response =>
            right
            exact ⟨hq, result, response, rfl, hrs, rfl, by
              simp [stepIteration, hq, hrs]⟩
  · intro result response hq hr hg hrs2
    subst hr; subst hrs2
    simp_all [stepIteration]

/-- Witness for C3 at a concrete fully-successful iteration. -/
theorem chat_history_growth_witness :
    (stepIteration "hello" (RetrOutcome.ok [(⟨"c"⟩, 1)]) (GenOutcome.ok "ans")
        "2025-01-01 00:00:00" "prior").chat_history
      = "prior" ++
        cache_query_answer_template (pyStrip "hello") "ans"
          "2025-01-01 00:00:00" :=
  (chat_history_growth "hello" "2025-01-01 00:00:00" "prior"
      (RetrOutcome.ok [(⟨"c"⟩, 1)]) (GenOutcome.ok "ans")).2
    [(⟨"c"⟩, 1)] "ans" (by decide) rfl (by decide) rfl

/-- C4: when the input is not an exit keyword and the retrieval call returns
a list whose screening survivors are empty, the iteration reports the normal
"no relevant documents" outcome, reports no error, does not invoke the
language model, leaves the chat history unchanged, and does not exit the
loop. -/
theorem empty_results_normal_outcome (rawInput time_stamp chat_history : String)
    (result : List (Doc × ℚ)) (gen : GenOutcome)
    (hq : isExitKeyword (pyStrip rawInput) = false)
    (hempty : result_screen result = []) :
    (stepIteration rawInput (RetrOutcome.ok result) gen time_stamp
        chat_history).llmCalled = false ∧
    (stepIteration rawInput (RetrOutcome.ok result) gen time_stamp
        chat_history).errorReported = false ∧
    (stepIteration rawInput (RetrOutcome.ok result) gen time_stamp
        chat_history).noRelevantReported = true ∧
    (stepIteration rawInput (RetrOutcome.ok result) gen time_stamp
        chat_history).exited = false ∧
    (stepIteration rawInput (RetrOutcome.ok result) gen time_stamp
        chat_history).chat_history = chat_history := by
  simp [stepIteration, hq, hempty]

/-- Witness for C4 at a concrete query whose only retrieved score `1/2` is
below the `0.7` threshold. -/
theorem empty_results_normal_outcome_witness :
    (stepIteration "hello" (RetrOutcome.ok [(⟨"c"⟩, mkRat 1 2)])
        GenOutcome.err "t" "h").llmCalled = false ∧
    (stepIteration "hello" (RetrOutcome.ok [(⟨"c"⟩, mkRat 1 2)])
        GenOutcome.err "t" "h").errorReported = false ∧
    (stepIteration "hello" (RetrOutcome.ok [(⟨"c"⟩, mkRat 1 2)])
        GenOutcome.err "t" "h").noRelevantReported = true ∧
    (stepIteration "hello" (RetrOutcome.ok [(⟨"c"⟩, mkRat 1 2)])
        GenOutcome.err "t" "h").exited = false ∧
    (stepIteration "hello" (RetrOutcome.ok [(⟨"c"⟩, mkRat 1 2)])
        GenOutcome.err "t" "h").chat_history = "h" :=
  empty_results_normal_outcome "hello" "t" "h" [(⟨"c"⟩, mkRat 1 2)]
    GenOutcome.err (by decide) (by decide)

/-- Cumulative observable state of a run of the conversation loop of
`rag_prompt.py` `main`: the chat history plus counts of the retrieval and
language-model calls made so far. -/
structure LoopState where
  chat_history : String
  retrievalCalls : Nat
  llmCalls : Nat
deriving DecidableEq

/-- The conversation loop of `rag_prompt.py` `main` (lines 150-214) run over
a finite script of iterations, each supplying the user input, the outcomes of
the external retrieval and generation calls, and the clock reading; the loop
stops at the first iteration whose effect is `exited` (the `break` on an exit
keyword) and ignores the rest of the script. -/
def runLoop : List (String × RetrOutcome × GenOutcome × String) → LoopState →
    LoopState
  | [], s => s
  | (rawInput, retr, gen, ts) :: rest, s =>
    let e := stepIteration rawInput retr gen ts s.chat_history
    let s' : LoopState :=
      ⟨e.chat_history,
       s.retrievalCalls + (if e.retrievalCalled then 1 else 0),
       s.llmCalls + (if e.llmCalled then 1 else 0)⟩
    if e.exited then s' else runLoop rest s'

/-- C9: if the first input is an exit keyword ("quit" or "exit" after
stripping, matched case-insensitively), the loop terminates at once — the
first iteration exits and the remaining script is never consumed — with zero
retrieval calls, zero language-model calls, and the chat history still the
empty string. -/
theorem quit_first_input_terminates (rawInput time_stamp : String)
    (retr : RetrOutcome) (gen : GenOutcome)
    (script : List (String × RetrOutcome × GenOutcome × String))
    (hq : isExitKeyword (pyStrip rawInput) = true) :
    (stepIteration rawInput retr gen time_stamp "").exited = true ∧
    runLoop ((rawInput, retr, gen, time_stamp) :: script) ⟨"", 0, 0⟩
      = ⟨"", 0, 0⟩ := by
  refine ⟨by simp [stepIteration, hq], ?_⟩
  simp [runLoop, stepIteration, hq]

/-- Witness for C9: first input `"  QUIT "` (upper case, surrounding
whitespace) against a nonempty rest-of-script. -/
theorem quit_first_input_terminates_witness :
    (stepIteration "  QUIT " RetrOutcome.err GenOutcome.err "t" "").exited
      = true ∧
    runLoop (("  QUIT ", RetrOutcome.err, GenOutcome.err, "t") ::
        [("later", RetrOutcome.ok [(⟨"c"⟩, 1)], GenOutcome.ok "a", "t2")])
      ⟨"", 0, 0⟩ = ⟨"", 0, 0⟩ :=
  quit_first_input_terminates "  QUIT " "t" RetrOutcome.err GenOutcome.err
    [("later", RetrOutcome.ok [(⟨"c"⟩, 1)], GenOutcome.ok "a", "t2")]
    (by decide)

/-- An embedding record of the vector index: the stored chunk text (the
vector itself and the metadata are opaque to every claim, so only the text
is carried). -/
structure EmbeddingRecord where
  text : String
deriving DecidableEq

/-- The external vector-store capability `Chroma.from_documents`
(`create_embedding_db.py` lines 156-160), per the spec an out-of-scope
collaborator with upsert semantics: persisting into a directory that already
holds a collection of the same name adds the new records to it; into a clean
directory it creates the collection from exactly the given chunks. -/
def chroma_from_documents (chunks : List String)
    (existing : Option (List EmbeddingRecord)) : List EmbeddingRecord :=
  (existing.getD []) ++ chunks.map (fun c => ⟨c⟩)

/-- The delete-then-rebuild sequence of `create_embedding_db.py` `main`
(lines 182-189): if a database exists at the target path, `shutil.rmtree`
removes it entirely, then `create_embedding_db` builds the collection from
the current chunks. The result is the collection persisted at the path. -/
def build_main (chunks : List String)
    (existing : Option (List EmbeddingRecord)) : List EmbeddingRecord :=
  let cleaned : Option (List EmbeddingRecord) :=
    if existing.isSome then none else existing
  chroma_from_documents chunks cleaned

/-- C6: the index build tool deletes any existing collection in full before
rebuilding: the rebuilt collection consists of exactly the records of the
current chunks, in order — no record of the old collection survives — and
the result is identical to building against an empty target (no incremental
upsert of the pre-existing records). -/
theorem rebuild_deletes_existing (chunks : List String)
    (existing : Option (List EmbeddingRecord)) :
    build_main chunks existing = chunks.map (fun c => ⟨c⟩) ∧
    build_main chunks existing = build_main chunks none := by
  cases existing with
  | none => exact ⟨rfl, rfl⟩
  | some old => exact ⟨rfl, rfl⟩

example : build_main ["a", "b"] (some [⟨"stale"⟩]) = [⟨"a"⟩, ⟨"b"⟩] := by decide
example : chroma_from_documents ["a"] (some [⟨"stale"⟩]) = [⟨"stale"⟩, ⟨"a"⟩] := by
  decide

/-- The scrape source URL constant of `scrape_marine_heatwave.py`
(line 15). -/
def NOAA_PSL_URL : String := "https://psl.noaa.gov/marine-heatwaves/#report"

/-- One entry of the sync log of `scrape_marine_heatwave.py`:
`{timestamp, forecast_date, status, source_url}` (lines 39-44). -/
structure SyncEntry where
  timestamp : String
  forecast_date : String
  status : String
  source_url : String
deriving DecidableEq

/-- `add_to_sync_log` of `scrape_marine_heatwave.py` (lines 34-54): build the
new entry, `insert(0, ...)` it at the front of the loaded log, keep only the
first 50 entries, and persist. `datetime.now().isoformat()` is the
`timestamp` parameter; the loaded and saved log is passed and returned. -/
def add_to_sync_log (timestamp forecast_date status : String)
    (log_entries : List SyncEntry) : List SyncEntry :=
  List.take 50 (⟨timestamp, forecast_date, status, NOAA_PSL_URL⟩ :: log_entries)

/-- The structured scrape result of `extract_discussion_sections`
(`scrape_marine_heatwave.py` lines 197-204). -/
structure DiscussionData where
  timestamp : String
  source_url : String
  forecast_date : String
  forecast_period : String
  markdown_content : String
deriving DecidableEq

/-- The per-forecast-date file name of `save_discussion_data`
(`scrape_marine_heatwave.py` line 216). -/
def discussion_filename (forecast_date : String) : String :=
  "marine_heatwave_discussion_init_" ++ forecast_date ++ ".md"

/-- The markdown payload composed by `save_discussion_data`
(`scrape_marine_heatwave.py` lines 225-236). -/
def compose_markdown (d : DiscussionData) : String :=
  "---\n" ++
  "title: Marine Heatwave Forecast Discussion\n" ++
  "source: " ++ d.source_url ++ "\n" ++
  "extracted: " ++ d.timestamp ++ "\n" ++
  "---\n\n" ++
  "# Marine Heatwave Forecast Discussion\n\n" ++
  "**Source:** [" ++ d.source_url ++ "](" ++ d.source_url ++ ")  \n" ++
  "**Extracted:** " ++ d.timestamp ++ "\n\n" ++
  "---\n\n" ++
  d.markdown_content ++ "\n"

/-- `save_discussion_data` of `scrape_marine_heatwave.py` (lines 212-247)
over a data directory modelled as a list of (file name, contents) pairs:
if the file for the forecast date exists, return `False` and write nothing;
otherwise write it — unless the write raises, in which case the `except`
arm returns the same `False` (`write_ok` models whether the file write
succeeds). Returns the Python return value and the resulting directory. -/
def save_discussion_data (d : DiscussionData) (write_ok : Bool)
    (files : List (String × String)) : Bool × List (String × String) :=
  let filename := discussion_filename d.forecast_date
  if files.any (fun f => f.1 == filename) then
    (false, files)
  else if write_ok then
    (true, files ++ [(filename, compose_markdown d)])
  else
    (false, files)

/-- The persistent state the scraper touches: the data directory and the
sync log. -/
structure ScrapeState where
  files : List (String × String)
  sync_log : List SyncEntry
deriving DecidableEq

/-- `scrape_marine_heatwave_discussion` of `scrape_marine_heatwave.py`
(lines 249-277): if fetching or extraction failed (`fetched = none`) return
with no state change; otherwise save the data and log `"success"` when
`save_discussion_data` returned `True`, `"already_exists"` when it returned
`False`. -/
def scrape_marine_heatwave_discussion (fetched : Option DiscussionData)
    (write_ok : Bool) (log_timestamp : String) (st : ScrapeState) :
    ScrapeState :=
  match fetched with
  | none => st
  | some d =>
    let saved := save_discussion_data d write_ok st.files
    if saved.1 then
      ⟨saved.2, add_to_sync_log log_timestamp d.forecast_date "success" st.sync_log⟩
    else
      ⟨saved.2, add_to_sync_log log_timestamp d.forecast_date "already_exists" st.sync_log⟩

theorem save_discussion_data_fresh (d : DiscussionData)
    (files : List (String × String))
    (hnew : files.any (fun f => f.1 == discussion_filename d.forecast_date)
      = false) :
    save_discussion_data d true files =
      (true, files ++ [(discussion_filename d.forecast_date, compose_markdown d)]) := by
  simp [save_discussion_data, hnew]

theorem save_discussion_data_existing (d : DiscussionData) (w : Bool)
    (files : List (String × String))
    (hex : files.any (fun f => f.1 == discussion_filename d.forecast_date)
      = true) :
    save_discussion_data d w files = (false, files) := by
  simp [save_discussion_data, hex]

/-- C7: if the file for a forecast date is absent, a first (successful)
scrape writes it exactly once; a second scrape of the same data leaves every
file untouched — regardless of whether its write would have succeeded — and
the sync log of the second run is exactly the first run's log with one new
`"already_exists"` entry prepended (then capped at 50). -/
theorem idempotent_scrape (d : DiscussionData) (w2 : Bool) (ts1 ts2 : String)
    (st0 : ScrapeState)
    (hnew : st0.files.any (fun f => f.1 == discussion_filename d.forecast_date)
      = false) :
    (scrape_marine_heatwave_discussion (some d) w2 ts2
        (scrape_marine_heatwave_discussion (some d) true ts1 st0)).files
      = (scrape_marine_heatwave_discussion (some d) true ts1 st0).files ∧
    ((scrape_marine_heatwave_discussion (some d) true ts1 st0).files.countP
        (fun f => f.1 == discussion_filename d.forecast_date)) = 1 ∧
    (scrape_marine_heatwave_discussion (some d) w2 ts2
        (scrape_marine_heatwave_discussion (some d) true ts1 st0)).sync_log
      = List.take 50
          (⟨ts2, d.forecast_date, "already_exists", NOAA_PSL_URL⟩ ::
            (scrape_marine_heatwave_discussion (some d) true ts1 st0).sync_log) := by
  have h1 : scrape_marine_heatwave_discussion (some d) true ts1 st0 =
      ⟨st0.files ++ [(discussion_filename d.forecast_date, compose_markdown d)],
       add_to_sync_log ts1 d.forecast_date "success" st0.sync_log⟩ := by
    simp [scrape_marine_heatwave_discussion, save_discussion_data_fresh d st0.files hnew]
  have hex : (st0.files ++
        [(discussion_filename d.forecast_date, compose_markdown d)]).any
      (fun f => f.1 == discussion_filename d.forecast_date) = true := by
    simp
  have h2 : scrape_marine_heatwave_discussion (some d) w2 ts2
      ⟨st0.files ++ [(discussion_filename d.forecast_date, compose_markdown d)],
       add_to_sync_log ts1 d.forecast_date "success" st0.sync_log⟩ =
      ⟨st0.files ++ [(discussion_filename d.forecast_date, compose_markdown d)],
       add_to_sync_log ts2 d.forecast_date "already_exists"
         (add_to_sync_log ts1 d.forecast_date "success" st0.sync_log)⟩ := by
    simp [scrape_marine_heatwave_discussion,
      save_discussion_data_existing d w2 _ hex]
  have hcount0 : st0.files.countP
      (fun f => f.1 == discussion_filename d.forecast_date) = 0 := by
    rw [List.countP_eq_zero]
    exact List.any_eq_false.mp hnew
  refine ⟨?_, ?_, ?_⟩
  · rw [h1, h2]
  · rw [h1]
    simp [List.countP_append, hcount0]
  · rw [h1, h2]
    rfl

/-- Witness for C7 from the empty state with concrete discussion data. -/
theorem idempotent_scrape_witness :
    (scrape_marine_heatwave_discussion
        (some ⟨"T0", NOAA_PSL_URL, "May_2025", "May_2025-Aug_2025", "body"⟩)
        false "t2"
        (scrape_marine_heatwave_discussion
          (some ⟨"T0", NOAA_PSL_URL, "May_2025", "May_2025-Aug_2025", "body"⟩)
          true "t1" ⟨[], []⟩)).files
      = (scrape_marine_heatwave_discussion
          (some ⟨"T0", NOAA_PSL_URL, "May_2025", "May_2025-Aug_2025", "body"⟩)
          true "t1" ⟨[], []⟩).files ∧
    ((scrape_marine_heatwave_discussion
        (some ⟨"T0", NOAA_PSL_URL, "May_2025", "May_2025-Aug_2025", "body"⟩)
        true "t1" ⟨[], []⟩).files.countP
          (fun f => f.1 == discussion_filename "May_2025")) = 1 ∧
    (scrape_marine_heatwave_discussion
        (some ⟨"T0", NOAA_PSL_URL, "May_2025", "May_2025-Aug_2025", "body"⟩)
        false "t2"
        (scrape_marine_heatwave_discussion
          (some ⟨"T0", NOAA_PSL_URL, "May_2025", "May_2025-Aug_2025", "body"⟩)
          true "t1" ⟨[], []⟩)).sync_log
      = List.take 50
          (⟨"t2", "May_2025", "already_exists", NOAA_PSL_URL⟩ ::
            (scrape_marine_heatwave_discussion
              (some ⟨"T0", NOAA_PSL_URL, "May_2025", "May_2025-Aug_2025", "body"⟩)
              true "t1" ⟨[], []⟩).sync_log) :=
  idempotent_scrape ⟨"T0", NOAA_PSL_URL, "May_2025", "May_2025-Aug_2025", "body"⟩
    false "t1" "t2" ⟨[], []⟩ (by decide)

/-- C10: a failed write (any exception in the save step) on a date whose file
does NOT exist returns the same `False` that the already-exists skip returns,
so the scrape run records a sync-log entry with status `"already_exists"` —
the log cannot distinguish a skipped write from a failed one. The failed run
also leaves the data directory unchanged. -/
theorem write_failure_logged_as_already_exists (d : DiscussionData)
    (ts : String) (st : ScrapeState)
    (hnew : st.files.any (fun f => f.1 == discussion_filename d.forecast_date)
      = false) :
    save_discussion_data d false st.files = (false, st.files) ∧
    (save_discussion_data d false st.files).1
      = (save_discussion_data d false
          (st.files ++
            [(discussion_filename d.forecast_date, compose_markdown d)])).1 ∧
    (scrape_marine_heatwave_discussion (some d) false ts st).sync_log
      = List.take 50
          (⟨ts, d.forecast_date, "already_exists", NOAA_PSL_URL⟩ :: st.sync_log) ∧
    (scrape_marine_heatwave_discussion (some d) false ts st).files
      = st.files := by
  have hsave : save_discussion_data d false st.files = (false, st.files) := by
    simp [save_discussion_data, hnew]
  have hex : (st.files ++
        [(discussion_filename d.forecast_date, compose_markdown d)]).any
      (fun f => f.1 == discussion_filename d.forecast_date) = true := by
    simp
  refine ⟨hsave, ?_, ?_, ?_⟩
  · rw [hsave, save_discussion_data_existing d false _ hex]
  · simp [scrape_marine_heatwave_discussion, hsave, add_to_sync_log]
  · simp [scrape_marine_heatwave_discussion, hsave]

/-- Witness for C10 at concrete discussion data and the empty state. -/
theorem write_failure_logged_witness :
    save_discussion_data ⟨"T0", NOAA_PSL_URL, "May_2025", "P", "body"⟩ false []
      = (false, []) ∧
    (save_discussion_data ⟨"T0", NOAA_PSL_URL, "May_2025", "P", "body"⟩
        false []).1
      = (save_discussion_data ⟨"T0", NOAA_PSL_URL, "May_2025", "P", "body"⟩
          false
          ([] ++
            [(discussion_filename "May_2025",
              compose_markdown ⟨"T0", NOAA_PSL_URL, "May_2025", "P", "body"⟩)])).1 ∧
    (scrape_marine_heatwave_discussion
        (some ⟨"T0", NOAA_PSL_URL, "May_2025", "P", "body"⟩) false "t"
        ⟨[], []⟩).sync_log
      = List.take 50
          (⟨"t", "May_2025", "already_exists", NOAA_PSL_URL⟩ :: []) ∧
    (scrape_marine_heatwave_discussion
        (some ⟨"T0", NOAA_PSL_URL, "May_2025", "P", "body"⟩) false "t"
        ⟨[], []⟩).files = [] :=
  write_failure_logged_as_already_exists
    ⟨"T0", NOAA_PSL_URL, "May_2025", "P", "body"⟩ "t" ⟨[], []⟩ (by decide)

theorem take_append_take {α : Type} (n : Nat) (xs ys : List α) :
    List.take n (xs ++ List.take n ys) = List.take n (xs ++ ys) := by
  have hmin : min (n - xs.length) n = n - xs.length :=
    Nat.min_eq_left (Nat.sub_le n xs.length)
  rw [List.take_append_eq_append_take, List.take_append_eq_append_take,
    List.take_take, hmin]

/-- One sync-log update, as performed by each scrape attempt that reaches
`add_to_sync_log`: an attempt is the (timestamp, forecast date, status)
triple of the entry it records. -/
def sync_log_update (log : List SyncEntry) (a : String × String × String) :
    List SyncEntry :=
  add_to_sync_log a.1 a.2.1 a.2.2 log

theorem foldl_sync_log_update (a : String × String × String)
    (attempts : List (String × String × String)) (log : List SyncEntry) :
    (a :: attempts).foldl sync_log_update log =
      List.take 50
        (((a :: attempts).reverse.map
            (fun x => (⟨x.1, x.2.1, x.2.2, NOAA_PSL_URL⟩ : SyncEntry))) ++ log) := by
  induction attempts generalizing a log with
  | nil => simp [sync_log_update, add_to_sync_log]
  | cons b bs ih =>
    have h1 : (a :: b :: bs).foldl sync_log_update log =
        (b :: bs).foldl sync_log_update
          (List.take 50 ((⟨a.1, a.2.1, a.2.2, NOAA_PSL_URL⟩ : SyncEntry) :: log)) :=
      rfl
    rw [h1, ih b (List.take 50 ((⟨a.1, a.2.1, a.2.2, NOAA_PSL_URL⟩ : SyncEntry) :: log)),
      take_append_take]
    simp [List.map_append, List.append_assoc]

/-- C8: every sync-log update prepends the new entry and truncates to at
most 50 entries, and after 60 attempts starting from any log the log is
exactly the 50 most recent entries, newest first (the first 50 of the
reversed attempt sequence, the older attempts and all prior entries having
been pushed out). -/
theorem sync_log_cap (log : List SyncEntry)
    (attempts : List (String × String × String))
    (h : attempts.length = 60) :
    (∀ ts date status l,
      add_to_sync_log ts date status l =
        List.take 50 ((⟨ts, date, status, NOAA_PSL_URL⟩ : SyncEntry) :: l) ∧
      (add_to_sync_log ts date status l).length ≤ 50) ∧
    (attempts.foldl sync_log_update log).length = 50 ∧
    attempts.foldl sync_log_update log =
      List.take 50
        ((attempts.reverse.map
            (fun x => (⟨x.1, x.2.1, x.2.2, NOAA_PSL_URL⟩ : SyncEntry))) ++ log) := by
  match attempts, h with
  | a :: rest, h =>
    have heq := foldl_sync_log_update a rest log
    refine ⟨fun ts date status l => ⟨rfl, ?_⟩, ?_, heq⟩
    · simp [add_to_sync_log]
    · rw [heq, List.length_take, List.length_append, List.length_map,
        List.length_reverse, h]
      omega

/-- Witness for C8: 60 identical attempts against the empty log. -/
theorem sync_log_cap_witness :
    (∀ ts date status l,
      add_to_sync_log ts date status l =
        List.take 50 ((⟨ts, date, status, NOAA_PSL_URL⟩ : SyncEntry) :: l) ∧
      (add_to_sync_log ts date status l).length ≤ 50) ∧
    ((List.replicate 60 ("t", "d", "success")).foldl sync_log_update []).length
      = 50 ∧
    (List.replicate 60 ("t", "d", "success")).foldl sync_log_update [] =
      List.take 50
        (((List.replicate 60 ("t", "d", "success")).reverse.map
            (fun x => (⟨x.1, x.2.1, x.2.2, NOAA_PSL_URL⟩ : SyncEntry))) ++ []) :=
  sync_log_cap [] (List.replicate 60 ("t", "d", "success")) (by simp)
